import Mathlib

/-!
Verification of the Task-Management-Nest authentication and task core.

Shallow embedding of:
- `src/src/auth/auth.service.ts` (`AuthService.register`, `AuthService.login`,
  `AuthService.resetPassword`), with bcrypt modelled functionally and the
  TypeORM user repository modelled as a list of rows; the store writes each
  operation performs are recorded as an explicit action trace and replayed by
  `applyActions`, so that atomicity is a theorem and not a modelling artifact;
- the JWT access guard on the task routes (modelled from the spec, see below);
- `TasksService.deleteTask`;
- `src/pipes/UpperCase.pipe.ts` (`UpperCasePipe.transform`) over a small model
  of JavaScript runtime values.
-/

namespace TaskMgmt

/-- Functional model of a bcrypt digest: `bcryptCompare p h` succeeds exactly
when `h` was derived from `p`; the cost factor used at derivation is kept so
that statements can talk about it. The digest is a distinct type from
`String`, so a stored `BHash` is never the plaintext. -/
structure BHash where
  pw : String
  cost : Nat
deriving DecidableEq, Repr

/-- Model of `bcrypt.hash(password, cost)`. -/
def bcryptHash (password : String) (cost : Nat) : BHash :=
  ⟨password, cost⟩

/-- Model of `bcrypt.compare(password, hash)`: the one-way verification
succeeds iff the hash was derived from this password. -/
def bcryptCompare (password : String) (h : BHash) : Bool :=
  password == h.pw

/-- A persisted User row (`users.entity`): id, username, name, email, and the
password credential (a `BHash`, never plaintext). -/
structure User where
  id : Nat
  username : String
  name : String
  email : String
  password : BHash
deriving DecidableEq, Repr

/-- The user repository: a list of rows plus the next generated id. -/
structure UserStore where
  users : List User
  nextId : Nat
deriving DecidableEq, Repr

/-- `userRepo.findOne({ where: { email } })`: first row with this email, or
none. -/
def UserStore.findByEmail (s : UserStore) (email : String) : Option User :=
  s.users.find? (fun u => u.email == email)

/-- `userRepo.findOne({ where: { username } })`: first row with this username,
or none. -/
def UserStore.findByUsername (s : UserStore) (username : String) : Option User :=
  s.users.find? (fun u => u.username == username)

/-- Store invariant from the data model: user ids are unique. -/
def UserStore.wf (s : UserStore) : Prop :=
  (s.users.map User.id).Nodup

instance (s : UserStore) : Decidable s.wf := by
  unfold UserStore.wf; infer_instance

/-- The error taxonomy of the service (`ConflictException`,
`UnauthorizedException`, `NotFoundException`, `BadRequestException`), each
carrying its message. -/
inductive AuthError
  | conflict (msg : String)
  | unauthorized (msg : String)
  | notFound (msg : String)
  | badRequest (msg : String)
deriving DecidableEq, Repr

/-- JWT claims issued at login: `{ sub: user.id, username: user.username }`. -/
structure JwtPayload where
  sub : Nat
  username : String
deriving DecidableEq, Repr

/-- A signed token: its claims, the secret it was signed with, and its
expiry instant. -/
structure Token where
  payload : JwtPayload
  signedWith : String
  exp : Nat
deriving DecidableEq, Repr

/-- `jwtService.sign(payload)` under the process-wide secret and expiry
configuration. -/
def jwtSign (secret : String) (expTime : Nat) (p : JwtPayload) : Token :=
  ⟨p, secret, expTime⟩

/-- A write the service performs against the user store:
`createSave` is `userRepo.create` followed by `userRepo.save` of a fresh
entity (the store assigns the generated id); `save` is `userRepo.save` of an
already-loaded entity (update in place, matched by id). Reads are not
recorded, they do not change the store. -/
inductive StoreAction
  | createSave (username name email : String) (password : BHash)
  | save (u : User)
deriving DecidableEq, Repr

/-- Effect of one store write on the store. -/
def applyAction (s : UserStore) : StoreAction → UserStore
  | .createSave un n e p => ⟨s.users ++ [⟨s.nextId, un, n, e, p⟩], s.nextId + 1⟩
  | .save u => ⟨s.users.map (fun v => if v.id == u.id then u else v), s.nextId⟩

/-- Replay a trace of store writes. -/
def applyActions (s : UserStore) (acts : List StoreAction) : UserStore :=
  acts.foldl applyAction s

/-- The password-free user view returned by `register`. -/
structure UserView where
  id : Nat
  username : String
  name : String
  email : String
deriving DecidableEq, Repr

/-- Successful `register` response. -/
structure RegisterResult where
  message : String
  user : UserView
deriving DecidableEq, Repr

/-- Successful `login` response. -/
structure LoginResult where
  message : String
  name : String
  accessToken : Token
deriving DecidableEq, Repr

/-- Successful `resetPassword` response. -/
structure ResetResult where
  message : String
deriving DecidableEq, Repr

/-- `true` on the success constructor of `Except`. -/
def okB {ε α : Type} : Except ε α → Bool
  | .ok _ => true
  | .error _ => false

/-- `true` on the error constructor of `Except`. -/
def errB {ε α : Type} (x : Except ε α) : Bool :=
  !(okB x)

/-- `AuthService.register(email, name, username, password)`: email uniqueness
check, then username uniqueness check, then hash with cost 10, create and
save. Returns the trace of store writes performed and the outcome. -/
def register (s : UserStore) (email name username password : String) :
    List StoreAction × Except AuthError RegisterResult :=
  match s.findByEmail email with
  | some _ => ([], .error (.conflict "User already exists with this email"))
  | none =>
    match s.findByUsername username with
    | some _ => ([], .error (.conflict "Username is already taken"))
    | none =>
      let hashed := bcryptHash password 10
      ([.createSave username name email hashed],
       .ok ⟨"User created successfully!", ⟨s.nextId, username, name, email⟩⟩)

/-- `register` together with its effect on the store. -/
def registerRun (s : UserStore) (email name username password : String) :
    UserStore × Except AuthError RegisterResult :=
  let r := register s email name username password
  (applyActions s r.1, r.2)

/-- `AuthService.login(email, password)`: lookup by email, bcrypt comparison,
token issuance. Performs no store writes. -/
def login (secret : String) (expTime : Nat) (s : UserStore)
    (email password : String) :
    List StoreAction × Except AuthError LoginResult :=
  match s.findByEmail email with
  | none => ([], .error (.unauthorized "User Not Found"))
  | some existedUser =>
    if !(bcryptCompare password existedUser.password) then
      ([], .error (.unauthorized "Invalid Password"))
    else
      ([], .ok ⟨"Login successful", existedUser.name,
        jwtSign secret expTime ⟨existedUser.id, existedUser.username⟩⟩)

/-- `AuthService.resetPassword(email, oldPassword, newPassword)`: lookup by
email, old-password comparison, new-password length policy, rehash with cost
10 and save. Returns the trace of store writes performed and the outcome. -/
def resetPassword (s : UserStore) (email oldPassword newPassword : String) :
    List StoreAction × Except AuthError ResetResult :=
  match s.findByEmail email with
  | none => ([], .error (.notFound "No user found with this email"))
  | some user =>
    if !(bcryptCompare oldPassword user.password) then
      ([], .error (.unauthorized "Old password is incorrect"))
    else if newPassword == "" || newPassword.length < 6 then
      ([], .error (.badRequest "New password must be at least 6 characters long"))
    else
      ([.save { user with password := bcryptHash newPassword 10 }],
       .ok ⟨"Password changed successfully!"⟩)

/-- `resetPassword` together with its effect on the store. -/
def resetRun (s : UserStore) (email oldPassword newPassword : String) :
    UserStore × Except AuthError ResetResult :=
  let r := resetPassword s email oldPassword newPassword
  (applyActions s r.1, r.2)

/-- The Authorization header of an inbound request to a protected task route:
absent, present but not of the shape `Bearer <token>`, or a bearer token. -/
inductive AuthHeader
  | missing
  | malformed (raw : String)
  | bearer (tok : Token)
deriving DecidableEq, Repr

/-- Modelled from the spec: the token verification the `JwtAuthGuard` /
JWT strategy performs (its source file is not in the repository slice; only
its use on `TasksController` is). A token verifies when it was signed with
the process-wide secret and its expiry instant has not passed. -/
def verifyToken (secret : String) (now : Nat) (t : Token) : Bool :=
  t.signedWith == secret && now < t.exp

/-- Modelled from the spec: the Access Guard on protected task routes.
Rejects with `Unauthorized` when the header is missing, malformed, or holds a
token that does not verify; otherwise decodes the claims into the
request-scoped identity. -/
def accessGuard (secret : String) (now : Nat) : AuthHeader → Except AuthError JwtPayload
  | .missing => .error (.unauthorized "Unauthorized")
  | .malformed _ => .error (.unauthorized "Unauthorized")
  | .bearer t =>
    if verifyToken secret now t then .ok t.payload
    else .error (.unauthorized "Unauthorized")

/-- A protected task route: the guard runs first and short-circuits on
rejection; only on success does the task handler run, on the decoded
identity. -/
def protectedTaskRoute {α : Type} (secret : String) (now : Nat)
    (h : AuthHeader) (handler : JwtPayload → α) : Except AuthError α :=
  match accessGuard secret now h with
  | .error e => .error e
  | .ok p => .ok (handler p)

/-- A persisted Task row (`task.entity`). -/
structure Task where
  id : String
  title : String
  description : String
  completed : Bool
deriving DecidableEq, Repr

/-- `tasksRepo.delete(id)`: removes the rows matching the id and reports how
many rows were affected. -/
def repoDelete (tasks : List Task) (id : String) : List Task × Nat :=
  let remaining := tasks.filter (fun t => !(t.id == id))
  (remaining, tasks.length - remaining.length)

/-- `TasksService.deleteTask(id)`: calls `tasksRepo.delete(id)`, discards its
result (the affected-row count is never inspected), and returns the fixed
success message. -/
def deleteTask (tasks : List Task) (id : String) : List Task × String :=
  let r := repoDelete tasks id
  (r.1, "Task Deleted Successfully!")

/-- A JavaScript runtime value, as far as `UpperCasePipe.transform` can
observe one: null, undefined, a boolean, a number, a string, or a plain
object given by its enumerable fields. -/
inductive JSValue
  | vnull
  | undef
  | bool (b : Bool)
  | num (n : Int)
  | str (s : String)
  | obj (fields : List (String × JSValue))

/-- The JavaScript `typeof` operator on a `JSValue`; note
`typeof null = "object"`. -/
def typeof : JSValue → String
  | .vnull => "object"
  | .undef => "undefined"
  | .bool _ => "boolean"
  | .num _ => "number"
  | .str _ => "string"
  | .obj _ => "object"

/-- The source's subexpression `typeof value !== null`: `typeof` yields a
string, and a strict comparison of a string with `null` is always true. -/
def typeofStrNeNull (_s : String) : Bool :=
  true

/-- One field of the `for (const key in value)` loop body: a string field is
replaced by its uppercase form, any other field is left alone. -/
def upperField : String × JSValue → String × JSValue
  | (k, .str s) => (k, .str s.toUpper)
  | (k, v) => (k, v)

/-- The object branch of the pipe: `for (const key in value)` uppercases the
string-valued fields of an object, and performs zero iterations on `null`
(or any non-object), returning the value unchanged. -/
def forInUpper : JSValue → JSValue
  | .obj fields => .obj (fields.map upperField)
  | v => v

/-- `UpperCasePipe.transform`: the object branch is guarded by
`typeof value === 'object' && typeof value !== null`; the string branch
uppercases; everything else throws `BadRequestException`. -/
def UpperCasePipe.transform (value : JSValue) : Except String JSValue :=
  if typeof value == "object" && typeofStrNeNull (typeof value) then
    .ok (forInUpper value)
  else if typeof value == "string" then
    match value with
    | .str s => .ok (.str s.toUpper)
    | v => .ok v
  else
    .error "Validation failed: value must be string or object"

/-- Claim C1: a request to a protected task route whose Authorization header
is missing, malformed, carries a token signed with the wrong secret, or
carries an expired token is rejected with `Unauthorized` before any task
handler runs; a request carrying a valid unexpired bearer token reaches the
task handler, which runs on the decoded claims. -/
theorem accessGuard_gates {α : Type} (secret : String) (now : Nat)
    (handler : JwtPayload → α) (t : Token) (raw : String) :
    protectedTaskRoute secret now .missing handler =
      .error (.unauthorized "Unauthorized") ∧
    protectedTaskRoute secret now (.malformed raw) handler =
      .error (.unauthorized "Unauthorized") ∧
    (t.signedWith ≠ secret →
      protectedTaskRoute secret now (.bearer t) handler =
        .error (.unauthorized "Unauthorized")) ∧
    (t.exp ≤ now →
      protectedTaskRoute secret now (.bearer t) handler =
        .error (.unauthorized "Unauthorized")) ∧
    (t.signedWith = secret → now < t.exp →
      protectedTaskRoute secret now (.bearer t) handler =
        .ok (handler t.payload)) := by
  refine ⟨rfl, rfl, ?_, ?_, ?_⟩
  · intro hsig
    simp [protectedTaskRoute, accessGuard, verifyToken,
      beq_eq_false_iff_ne.mpr hsig]
  · intro hexp
    simp [protectedTaskRoute, accessGuard, verifyToken, Nat.not_lt.mpr hexp]
  · intro hsig hexp
    simp [protectedTaskRoute, accessGuard, verifyToken, hsig, hexp]

/-- Witness for C1 at concrete tokens: a token signed with the wrong secret
and an expired token are rejected; a valid unexpired token reaches the
handler. -/
theorem accessGuard_gates_witness :
    protectedTaskRoute "sec" 5 (.bearer ⟨⟨1, "a1"⟩, "bad", 10⟩)
      (fun p => p.username) = .error (.unauthorized "Unauthorized") ∧
    protectedTaskRoute "sec" 5 (.bearer ⟨⟨1, "a1"⟩, "sec", 3⟩)
      (fun p => p.username) = .error (.unauthorized "Unauthorized") ∧
    protectedTaskRoute "sec" 5 (.bearer ⟨⟨1, "a1"⟩, "sec", 10⟩)
      (fun p => p.username) = .ok "a1" :=
  ⟨(accessGuard_gates "sec" 5 (fun p => p.username) ⟨⟨1, "a1"⟩, "bad", 10⟩ "x").2.2.1
      (by decide),
   (accessGuard_gates "sec" 5 (fun p => p.username) ⟨⟨1, "a1"⟩, "sec", 3⟩ "x").2.2.2.1
      (by decide),
   (accessGuard_gates "sec" 5 (fun p => p.username) ⟨⟨1, "a1"⟩, "sec", 10⟩ "x").2.2.2.2
      rfl (by decide)⟩

/-- Claim C2: `login` fails with `Unauthorized("User Not Found")` when no
user matches the email, fails with `Unauthorized("Invalid Password")` when
the bcrypt comparison fails, and succeeds exactly when the comparison
succeeds, returning the user's display name and a token signed over
`{sub: user.id, username: user.username}`. -/
theorem login_spec (secret : String) (expTime : Nat) (s : UserStore)
    (e pw : String) :
    (s.findByEmail e = none →
      (login secret expTime s e pw).2 =
        .error (.unauthorized "User Not Found")) ∧
    (∀ u, s.findByEmail e = some u →
      (bcryptCompare pw u.password = false →
        (login secret expTime s e pw).2 =
          .error (.unauthorized "Invalid Password")) ∧
      (bcryptCompare pw u.password = true →
        (login secret expTime s e pw).2 =
          .ok ⟨"Login successful", u.name,
            jwtSign secret expTime ⟨u.id, u.username⟩⟩)) := by
  constructor
  · intro h
    simp [login, h]
  · intro u hu
    constructor <;> intro hc <;> simp [login, hu, hc]

/-- Witness for C2 at the spec scenario: login with the registered password
returns the display name and the signed token; login with a wrong password
is `Unauthorized("Invalid Password")`. -/
theorem login_spec_witness :
    (login "sec" 9 ⟨[⟨1, "a1", "A", "a@x.com", bcryptHash "secret1" 10⟩], 2⟩
        "a@x.com" "secret1").2 =
      .ok ⟨"Login successful", "A", jwtSign "sec" 9 ⟨1, "a1"⟩⟩ ∧
    (login "sec" 9 ⟨[⟨1, "a1", "A", "a@x.com", bcryptHash "secret1" 10⟩], 2⟩
        "a@x.com" "wrong").2 =
      .error (.unauthorized "Invalid Password") :=
  ⟨((login_spec "sec" 9 ⟨[⟨1, "a1", "A", "a@x.com", bcryptHash "secret1" 10⟩], 2⟩
        "a@x.com" "secret1").2
      ⟨1, "a1", "A", "a@x.com", bcryptHash "secret1" 10⟩ (by decide)).2 (by decide),
   ((login_spec "sec" 9 ⟨[⟨1, "a1", "A", "a@x.com", bcryptHash "secret1" 10⟩], 2⟩
        "a@x.com" "wrong").2
      ⟨1, "a1", "A", "a@x.com", bcryptHash "secret1" 10⟩ (by decide)).1 (by decide)⟩

/-- Claim C3: `resetPassword` checks run in a fixed order: `NotFound` when no
user matches the email; otherwise `Unauthorized("Old password is incorrect")`
when the old password fails the bcrypt comparison (regardless of the new
password); otherwise `BadRequest` when the new password is empty or shorter
than 6 characters; otherwise it succeeds, saving the rehashed password. -/
theorem resetPassword_spec (s : UserStore) (e old nw : String) :
    (s.findByEmail e = none →
      (resetPassword s e old nw).2 =
        .error (.notFound "No user found with this email")) ∧
    (∀ u, s.findByEmail e = some u →
      (bcryptCompare old u.password = false →
        (resetPassword s e old nw).2 =
          .error (.unauthorized "Old password is incorrect")) ∧
      (bcryptCompare old u.password = true → (nw == "" || nw.length < 6) = true →
        (resetPassword s e old nw).2 =
          .error (.badRequest "New password must be at least 6 characters long")) ∧
      (bcryptCompare old u.password = true → (nw == "" || nw.length < 6) = false →
        resetPassword s e old nw =
          ([.save { u with password := bcryptHash nw 10 }],
           .ok ⟨"Password changed successfully!"⟩))) := by
  constructor
  · intro h
    simp [resetPassword, h]
  · intro u hu
    refine ⟨?_, ?_, ?_⟩
    · intro hc
      simp [resetPassword, hu, hc]
    · intro hc hlen
      simp [resetPassword, hu, hc, hlen]
    · intro hc hlen
      simp [resetPassword, hu, hc, hlen]

/-- Witness for C3 at concrete inputs: a wrong old password is rejected with
`Unauthorized` even though the new password is also too short (order of
checks); a too-short new password "12345" is rejected with `BadRequest`;
"123456" succeeds. -/
theorem resetPassword_spec_witness :
    (resetPassword ⟨[⟨1, "a1", "A", "a@x.com", bcryptHash "oldpw1" 10⟩], 2⟩
        "a@x.com" "wrong" "123").2 =
      .error (.unauthorized "Old password is incorrect") ∧
    (resetPassword ⟨[⟨1, "a1", "A", "a@x.com", bcryptHash "oldpw1" 10⟩], 2⟩
        "a@x.com" "oldpw1" "12345").2 =
      .error (.badRequest "New password must be at least 6 characters long") ∧
    resetPassword ⟨[⟨1, "a1", "A", "a@x.com", bcryptHash "oldpw1" 10⟩], 2⟩
        "a@x.com" "oldpw1" "123456" =
      ([.save ⟨1, "a1", "A", "a@x.com", bcryptHash "123456" 10⟩],
       .ok ⟨"Password changed successfully!"⟩) :=
  ⟨(((resetPassword_spec ⟨[⟨1, "a1", "A", "a@x.com", bcryptHash "oldpw1" 10⟩], 2⟩
        "a@x.com" "wrong" "123").2
      ⟨1, "a1", "A", "a@x.com", bcryptHash "oldpw1" 10⟩ (by decide)).1 (by decide)),
   (((resetPassword_spec ⟨[⟨1, "a1", "A", "a@x.com", bcryptHash "oldpw1" 10⟩], 2⟩
        "a@x.com" "oldpw1" "12345").2
      ⟨1, "a1", "A", "a@x.com", bcryptHash "oldpw1" 10⟩ (by decide)).2.1 (by decide)
        (by decide)),
   (((resetPassword_spec ⟨[⟨1, "a1", "A", "a@x.com", bcryptHash "oldpw1" 10⟩], 2⟩
        "a@x.com" "oldpw1" "123456").2
      ⟨1, "a1", "A", "a@x.com", bcryptHash "oldpw1" 10⟩ (by decide)).2.2 (by decide)
        (by decide))⟩

/-- Claim C4: `register` fails with `Conflict` whenever the email is already
registered, for every username; with a fresh email it fails with `Conflict`
whenever the username is taken; the email check runs first, so when both
collide the email conflict message is the one observed. -/
theorem register_conflicts (s : UserStore) (e n un pw : String) :
    ((s.findByEmail e).isSome = true →
      (register s e n un pw).2 =
        .error (.conflict "User already exists with this email")) ∧
    (s.findByEmail e = none → (s.findByUsername un).isSome = true →
      (register s e n un pw).2 =
        .error (.conflict "Username is already taken")) := by
  constructor
  · intro h
    obtain ⟨u, hu⟩ := Option.isSome_iff_exists.mp h
    simp [register, hu]
  · intro h1 h2
    obtain ⟨u, hu⟩ := Option.isSome_iff_exists.mp h2
    simp [register, h1, hu]

/-- Witness for C4 at a concrete store: when both the email and the username
collide, the email conflict is observed; with a fresh email and a taken
username, the username conflict is observed. -/
theorem register_conflicts_witness :
    (register ⟨[⟨1, "a1", "A", "a@x.com", bcryptHash "secret1" 10⟩], 2⟩
        "a@x.com" "B" "a1" "pw").2 =
      .error (.conflict "User already exists with this email") ∧
    (register ⟨[⟨1, "a1", "A", "a@x.com", bcryptHash "secret1" 10⟩], 2⟩
        "b@x.com" "B" "a1" "pw").2 =
      .error (.conflict "Username is already taken") :=
  ⟨(register_conflicts ⟨[⟨1, "a1", "A", "a@x.com", bcryptHash "secret1" 10⟩], 2⟩
        "a@x.com" "B" "a1" "pw").1 (by decide),
   (register_conflicts ⟨[⟨1, "a1", "A", "a@x.com", bcryptHash "secret1" 10⟩], 2⟩
        "b@x.com" "B" "a1" "pw").2 (by decide) (by decide)⟩

/-- Replacing, in a list of users with pairwise-distinct ids, the user found
by an email lookup with a user of the same id and email leaves that user the
first email match. -/
theorem find?_replace (l : List User) (e : String) (u u' : User)
    (hnodup : (l.map User.id).Nodup)
    (hfind : l.find? (fun v => v.email == e) = some u)
    (hid : u'.id = u.id) (hemail : u'.email = u.email) :
    (l.map (fun v => if v.id == u'.id then u' else v)).find?
      (fun v => v.email == e) = some u' := by
  induction l with
  | nil => simp at hfind
  | cons v t ih =>
    rw [List.map_cons, List.nodup_cons] at hnodup
    by_cases hv : (v.email == e) = true
    · rw [@List.find?_cons_of_pos _ (fun w => w.email == e) v t hv] at hfind
      have huv : v = u := by injection hfind
      subst huv
      have hcond : (v.id == u'.id) = true := beq_iff_eq.mpr hid.symm
      have hp : (u'.email == e) = true := by rw [hemail]; exact hv
      rw [List.map_cons, if_pos hcond,
        @List.find?_cons_of_pos _ (fun w => w.email == e) u' _ hp]
    · rw [@List.find?_cons_of_neg _ (fun w => w.email == e) v t hv] at hfind
      have hu_mem : u ∈ t := List.mem_of_find?_eq_some hfind
      have hne : (v.id == u'.id) = false := by
        rw [hid]
        refine beq_eq_false_iff_ne.mpr ?_
        intro hcontra
        exact hnodup.1 (hcontra ▸ List.mem_map_of_mem User.id hu_mem)
      rw [List.map_cons, if_neg (by simp [hne]),
        @List.find?_cons_of_neg _ (fun w => w.email == e) v _ hv]
      exact ih hnodup.2 hfind

/-- Claim C5, counterexample to the claim as stated: with the pair
oldPassword = newPassword = "123456", `resetPassword` succeeds, yet the
subsequent `login` with the old password succeeds instead of failing with
`Unauthorized`. -/
theorem reset_then_login_cex :
    okB (resetPassword ⟨[⟨1, "a1", "A", "a@x.com", bcryptHash "123456" 10⟩], 2⟩
        "a@x.com" "123456" "123456").2 = true ∧
    (login "sec" 9
        (resetRun ⟨[⟨1, "a1", "A", "a@x.com", bcryptHash "123456" 10⟩], 2⟩
          "a@x.com" "123456" "123456").1
        "a@x.com" "123456").2 =
      .ok ⟨"Login successful", "A", jwtSign "sec" 9 ⟨1, "a1"⟩⟩ := by
  constructor <;> rfl

/-- Claim C5 (amended: the two passwords must differ; the store satisfies the
unique-id invariant of the data model): after a successful
`resetPassword(email, old, new)` with `old ≠ new`, a subsequent login with
the new password succeeds and a subsequent login with the old password fails
with `Unauthorized("Invalid Password")`. -/
theorem reset_then_login (secret : String) (expTime : Nat) (s : UserStore)
    (e old nw : String) (hwf : s.wf) (hne : old ≠ nw)
    (hok : okB (resetPassword s e old nw).2 = true) :
    okB (login secret expTime (resetRun s e old nw).1 e nw).2 = true ∧
    (login secret expTime (resetRun s e old nw).1 e old).2 =
      .error (.unauthorized "Invalid Password") := by
  cases hfe : s.findByEmail e with
  | none => simp [resetPassword, hfe, okB] at hok
  | some u =>
    by_cases hc : bcryptCompare old u.password = true
    · by_cases hlen : (nw == "" || nw.length < 6) = true
      · simp [resetPassword, hfe, hc, hlen, okB] at hok
      · have hr : resetPassword s e old nw =
            ([.save { u with password := bcryptHash nw 10 }],
             .ok ⟨"Password changed successfully!"⟩) := by
          simp [resetPassword, hfe, hc, eq_false_of_ne_true hlen]
        have hs' : (resetRun s e old nw).1 =
            applyAction s (.save { u with password := bcryptHash nw 10 }) := by
          simp [resetRun, hr, applyActions]
        have hfind' :
            ((resetRun s e old nw).1).findByEmail e =
              some { u with password := bcryptHash nw 10 } := by
          rw [hs']
          exact find?_replace s.users e u _ hwf hfe rfl rfl
        constructor
        · simp [login, hfind', bcryptCompare, bcryptHash, okB]
        · simp [login, hfind', bcryptCompare, bcryptHash,
            beq_eq_false_iff_ne.mpr hne]
    · simp [resetPassword, hfe, eq_false_of_ne_true hc, okB] at hok

/-- Witness for the amended C5 at a concrete store: after resetting from
"oldpw1" to "newpw1", login with "newpw1" succeeds and login with "oldpw1"
is `Unauthorized("Invalid Password")`. -/
theorem reset_then_login_witness :
    okB (login "sec" 9
        (resetRun ⟨[⟨1, "a1", "A", "a@x.com", bcryptHash "oldpw1" 10⟩], 2⟩
          "a@x.com" "oldpw1" "newpw1").1
        "a@x.com" "newpw1").2 = true ∧
    (login "sec" 9
        (resetRun ⟨[⟨1, "a1", "A", "a@x.com", bcryptHash "oldpw1" 10⟩], 2⟩
          "a@x.com" "oldpw1" "newpw1").1
        "a@x.com" "oldpw1").2 =
      .error (.unauthorized "Invalid Password") :=
  reset_then_login "sec" 9 ⟨[⟨1, "a1", "A", "a@x.com", bcryptHash "oldpw1" 10⟩], 2⟩
    "a@x.com" "oldpw1" "newpw1" (by decide) (by decide) (by decide)

/-- Claim C6: with a fresh email and username, `register` hashes the password
with cost factor 10, persists a new user whose password field is that hash
(a `BHash`, never the plaintext), and returns a success message with the
password-free view `{id, username, name, email}`. -/
theorem register_success (s : UserStore) (e n un pw : String)
    (h1 : s.findByEmail e = none) (h2 : s.findByUsername un = none) :
    register s e n un pw =
      ([.createSave un n e (bcryptHash pw 10)],
       .ok ⟨"User created successfully!", ⟨s.nextId, un, n, e⟩⟩) ∧
    (registerRun s e n un pw).1 =
      ⟨s.users ++ [⟨s.nextId, un, n, e, bcryptHash pw 10⟩], s.nextId + 1⟩ := by
  have hreg : register s e n un pw =
      ([.createSave un n e (bcryptHash pw 10)],
       .ok ⟨"User created successfully!", ⟨s.nextId, un, n, e⟩⟩) := by
    simp [register, h1, h2]
  exact ⟨hreg, by simp [registerRun, hreg, applyActions, applyAction]⟩

/-- Witness for C6 at the spec scenario on the empty store:
register("a@x.com", "A", "a1", "secret1") persists the hashed user and
returns the view without a password field. -/
theorem register_success_witness :
    register ⟨[], 1⟩ "a@x.com" "A" "a1" "secret1" =
      ([.createSave "a1" "A" "a@x.com" (bcryptHash "secret1" 10)],
       .ok ⟨"User created successfully!", ⟨1, "a1", "A", "a@x.com"⟩⟩) ∧
    (registerRun ⟨[], 1⟩ "a@x.com" "A" "a1" "secret1").1 =
      ⟨[⟨1, "a1", "A", "a@x.com", bcryptHash "secret1" 10⟩], 2⟩ :=
  register_success ⟨[], 1⟩ "a@x.com" "A" "a1" "secret1" rfl rfl

/-- Claim C7: `register` enforces no minimum password length: with a fresh
email and username it succeeds for every password, the empty string
included; the length-6 policy lives only in `resetPassword`. -/
theorem register_no_min_length (s : UserStore) (e n un pw : String)
    (h1 : s.findByEmail e = none) (h2 : s.findByUsername un = none) :
    okB (register s e n un pw).2 = true := by
  simp [register, h1, h2, okB]

/-- Witness for C7: registering with the empty password (length 0 < 6)
succeeds on the empty store. -/
theorem register_no_min_length_witness :
    "".length < 6 ∧ okB (register ⟨[], 1⟩ "a@x.com" "A" "a1" "").2 = true :=
  ⟨by decide, register_no_min_length ⟨[], 1⟩ "a@x.com" "A" "a1" "" rfl rfl⟩

/-- Claim C8: each credential operation is atomic with respect to the user
store: whenever it fails with an error of the taxonomy, replaying the store
writes it performed leaves the store exactly as it was before the call. -/
theorem credential_ops_atomic (secret : String) (expTime : Nat)
    (s : UserStore) (e n un pw lpw old nw : String) :
    (errB (register s e n un pw).2 = true →
      applyActions s (register s e n un pw).1 = s) ∧
    (errB (login secret expTime s e lpw).2 = true →
      applyActions s (login secret expTime s e lpw).1 = s) ∧
    (errB (resetPassword s e old nw).2 = true →
      applyActions s (resetPassword s e old nw).1 = s) := by
  refine ⟨?_, ?_, ?_⟩
  · intro herr
    cases hfe : s.findByEmail e with
    | some u => simp [register, hfe, applyActions]
    | none =>
      cases hfu : s.findByUsername un with
      | some u => simp [register, hfe, hfu, applyActions]
      | none => simp [register, hfe, hfu, errB, okB] at herr
  · intro herr
    cases hfe : s.findByEmail e with
    | none => simp [login, hfe, applyActions]
    | some u =>
      by_cases hc : bcryptCompare lpw u.password = true
      · simp [login, hfe, hc, errB, okB] at herr
      · simp [login, hfe, eq_false_of_ne_true hc, applyActions]
  · intro herr
    cases hfe : s.findByEmail e with
    | none => simp [resetPassword, hfe, applyActions]
    | some u =>
      by_cases hc : bcryptCompare old u.password = true
      · by_cases hlen : (nw == "" || nw.length < 6) = true
        · simp [resetPassword, hfe, hc, hlen, applyActions]
        · simp [resetPassword, hfe, hc, eq_false_of_ne_true hlen,
            errB, okB] at herr
      · simp [resetPassword, hfe, eq_false_of_ne_true hc, applyActions]

/-- Witness for C8 at a concrete store: a register that hits the email
conflict, a login for an unknown user, and a reset for an unknown user all
leave the store exactly as it was. -/
theorem credential_ops_atomic_witness :
    applyActions ⟨[⟨1, "a1", "A", "a@x.com", bcryptHash "secret1" 10⟩], 2⟩
      (register ⟨[⟨1, "a1", "A", "a@x.com", bcryptHash "secret1" 10⟩], 2⟩
        "a@x.com" "B" "b1" "pw").1 =
      ⟨[⟨1, "a1", "A", "a@x.com", bcryptHash "secret1" 10⟩], 2⟩ ∧
    applyActions ⟨[⟨1, "a1", "A", "a@x.com", bcryptHash "secret1" 10⟩], 2⟩
      (login "sec" 9 ⟨[⟨1, "a1", "A", "a@x.com", bcryptHash "secret1" 10⟩], 2⟩
        "b@x.com" "pw").1 =
      ⟨[⟨1, "a1", "A", "a@x.com", bcryptHash "secret1" 10⟩], 2⟩ ∧
    applyActions ⟨[⟨1, "a1", "A", "a@x.com", bcryptHash "secret1" 10⟩], 2⟩
      (resetPassword ⟨[⟨1, "a1", "A", "a@x.com", bcryptHash "secret1" 10⟩], 2⟩
        "b@x.com" "old" "newpw1").1 =
      ⟨[⟨1, "a1", "A", "a@x.com", bcryptHash "secret1" 10⟩], 2⟩ :=
  ⟨(credential_ops_atomic "sec" 9
      ⟨[⟨1, "a1", "A", "a@x.com", bcryptHash "secret1" 10⟩], 2⟩
      "a@x.com" "B" "b1" "pw" "pw" "old" "newpw1").1 (by decide),
   (credential_ops_atomic "sec" 9
      ⟨[⟨1, "a1", "A", "a@x.com", bcryptHash "secret1" 10⟩], 2⟩
      "b@x.com" "B" "b1" "pw" "pw" "old" "newpw1").2.1 (by decide),
   (credential_ops_atomic "sec" 9
      ⟨[⟨1, "a1", "A", "a@x.com", bcryptHash "secret1" 10⟩], 2⟩
      "b@x.com" "B" "b1" "pw" "pw" "old" "newpw1").2.2 (by decide)⟩

/-- Claim C9: `deleteTask` returns "Task Deleted Successfully!" for every id,
and when no stored task matches the id the store's delete affected zero rows
and the store is unchanged, yet the message is the same: the affected-row
count is never inspected and a not-found error is never reported. -/
theorem deleteTask_always_succeeds (tasks : List Task) (id : String) :
    (deleteTask tasks id).2 = "Task Deleted Successfully!" ∧
    (tasks.find? (fun t => t.id == id) = none →
      (repoDelete tasks id).2 = 0 ∧ (deleteTask tasks id).1 = tasks) := by
  refine ⟨rfl, ?_⟩
  intro h
  have hall : ∀ t ∈ tasks, ¬(t.id == id) = true := List.find?_eq_none.mp h
  have hfilter : tasks.filter (fun t => !(t.id == id)) = tasks := by
    apply List.filter_eq_self.mpr
    intro t ht
    simp [hall t ht]
  constructor
  · simp [repoDelete, hfilter]
  · simp [deleteTask, repoDelete, hfilter]

/-- Witness for C9: deleting an id that matches no stored task still returns
the success message, affects zero rows, and leaves the store unchanged. -/
theorem deleteTask_always_succeeds_witness :
    (deleteTask [⟨"1", "Test Task", "Test Description", false⟩] "zzz").2 =
      "Task Deleted Successfully!" ∧
    (repoDelete [⟨"1", "Test Task", "Test Description", false⟩] "zzz").2 = 0 ∧
    (deleteTask [⟨"1", "Test Task", "Test Description", false⟩] "zzz").1 =
      [⟨"1", "Test Task", "Test Description", false⟩] :=
  ⟨(deleteTask_always_succeeds [⟨"1", "Test Task", "Test Description", false⟩]
      "zzz").1,
   ((deleteTask_always_succeeds [⟨"1", "Test Task", "Test Description", false⟩]
      "zzz").2 (by decide)).1,
   ((deleteTask_always_succeeds [⟨"1", "Test Task", "Test Description", false⟩]
      "zzz").2 (by decide)).2⟩

/-- Claim C10: `UpperCasePipe.transform` throws `BadRequestException` exactly
when `typeof` of its input is neither "object" nor "string"; since the null
guard compares the string `typeof value` against `null` (always unequal) and
`typeof null` is "object", `transform null` takes the object branch and
returns `null` unchanged instead of throwing. -/
theorem transform_spec (v : JSValue) :
    (okB (UpperCasePipe.transform v) = false ↔
      typeof v ≠ "object" ∧ typeof v ≠ "string") ∧
    UpperCasePipe.transform JSValue.vnull = .ok JSValue.vnull := by
  refine ⟨?_, rfl⟩
  cases v <;>
    simp [UpperCasePipe.transform, typeof, typeofStrNeNull, okB]

end TaskMgmt
